import Mathlib

/-
Verification of the rate-limited batch-extraction controller
(`examples/batch_extraction.py`) against its natural-language specification.

The Python source is shallowly embedded: pure computations become Lean
functions, the mutable `ProcessingState` becomes an explicit state value
threaded through every operation, wall-clock reads (`time.time()`,
`datetime.now()`) and the remote extraction call become explicit per-item
inputs (`FileOutcome`), and Python exceptions become `Except` results.
Python floats are modelled as exact rationals.
-/

namespace LangExtractBatch

/-- Python `int(x)` on a real value: truncation toward zero. -/
def pyInt (q : ℚ) : Int :=
  if 0 ≤ q then ⌊q⌋ else ⌈q⌉

/-- Python `text[:n]` on a character sequence: a nonnegative bound takes a
prefix, a negative bound counts from the end (clamped at zero). -/
def pySlice (t : List Char) (n : Int) : List Char :=
  if 0 ≤ n then t.take n.toNat else t.take ((t.length : Int) + n).toNat

/-- `RateLimits` dataclass: rate limit configuration for the Gemini API free
tier.  Field defaults are those of the source; floats are exact rationals
(`0.8 = 4/5`). -/
structure RateLimits where
  requests_per_minute : Int := 10
  tokens_per_minute : Int := 250000
  requests_per_day : Int := 250
  safety_factor : ℚ := 4/5
deriving DecidableEq

/-- `RateLimits.safe_rpm` property: `int(self.requests_per_minute * self.safety_factor)`. -/
def RateLimits.safe_rpm (rl : RateLimits) : Int :=
  pyInt ((rl.requests_per_minute : ℚ) * rl.safety_factor)

/-- `RateLimits.safe_tpm` property: `int(self.tokens_per_minute * self.safety_factor)`. -/
def RateLimits.safe_tpm (rl : RateLimits) : Int :=
  pyInt ((rl.tokens_per_minute : ℚ) * rl.safety_factor)

/-- `RateLimits.safe_rpd` property: `int(self.requests_per_day * self.safety_factor)`. -/
def RateLimits.safe_rpd (rl : RateLimits) : Int :=
  pyInt ((rl.requests_per_day : ℚ) * rl.safety_factor)

/-- The dataclass constructor `RateLimits(...)`: it is total — the source
performs no validation of any field. -/
def mkRateLimits (rpm tpm rpd : Int) (f : ℚ) : RateLimits :=
  { requests_per_minute := rpm, tokens_per_minute := tpm,
    requests_per_day := rpd, safety_factor := f }

/-- A quota-policy constructor following the SPEC's words (§4.1: "Must reject
(fail with `ConfigurationError`) construction where `safetyFactor` is outside
`(0, 1]` or any base rate is negative."), for comparison with the source's
unvalidated `mkRateLimits`. -/
def mkRateLimitsSpec (rpm tpm rpd : Int) (f : ℚ) : Except String RateLimits :=
  if f ≤ 0 ∨ 1 < f ∨ rpm < 0 ∨ tpm < 0 ∨ rpd < 0 then
    Except.error "ConfigurationError"
  else
    Except.ok (mkRateLimits rpm tpm rpd f)

/-- One entry of `ProcessingState.processing_history`. -/
structure HistEntry where
  file : String
  timestamp : String
  entities_found : Nat
  processing_time : ℚ
  tokens_estimated : Nat
deriving DecidableEq

/-- `ProcessingState` dataclass: the persisted run state
(`__post_init__` makes the two list fields default to `[]`). -/
structure ProcessingState where
  total_files : Nat := 0
  processed_files : Nat := 0
  failed_files : List String := []
  current_date : String := ""
  daily_requests : Nat := 0
  last_request_time : ℚ := 0
  processing_history : List HistEntry := []
deriving DecidableEq

/-- A `pathlib.Path` value as the controller observes it: `str(file)`,
`file.name`, `file.stem`. -/
structure PyPath where
  full : String
  name : String
  stem : String
deriving DecidableEq

/-- `TokenEstimator.estimate_request_tokens`: the opaque per-string counting
primitive (`tok`) applied to the text, the prompt and the string form of every
example, scaled by the response-overhead multiplier
(`int(total * 1.5)` = `3 * total / 2` in exact arithmetic). -/
def estimateRequestTokens (tok : List Char → Nat) (text prompt : List Char)
    (examples : List (List Char)) : Nat :=
  (3 * (tok text + tok prompt + (examples.map tok).sum)) / 2

/-- `BatchExtractor._get_unprocessed_files`: the sorted input files, keeping
those whose stem has no result file and whose path is not in the failed list. -/
def getUnprocessedFiles (allFiles : List PyPath) (outputStems : List String)
    (failed : List String) : List PyPath :=
  allFiles.filter (fun f => !(outputStems.contains f.stem) && !(failed.contains f.full))

/-- `BatchExtractor._wait_for_rate_limit`: evaluates `60 / safe_rpm` with no
guard, so with `safe_rpm = 0` Python raises `ZeroDivisionError` (modelled as
an `Except.error`).  Otherwise returns the sleep duration (0 when no wait is
needed); when a wait is needed the duration `spacing - elapsed` is positive,
so `time.sleep` itself never fails. -/
def waitForRateLimit (rl : RateLimits) (currentTime lastRequestTime : ℚ) :
    Except String ℚ :=
  if rl.safe_rpm = 0 then Except.error "ZeroDivisionError"
  else
    let spacing : ℚ := 60 / (rl.safe_rpm : ℚ)
    let elapsed : ℚ := currentTime - lastRequestTime
    Except.ok (if elapsed < spacing then spacing - elapsed else 0)

/-- `BatchExtractor._check_daily_limit`: `today` is the value of
`datetime.now().strftime("%Y-%m-%d")` at call time.  Resets the daily counter
on date rollover, then reports whether processing may proceed
(`false` = daily limit reached). -/
def checkDailyLimit (rl : RateLimits) (today : String) (s : ProcessingState) :
    Bool × ProcessingState :=
  let s1 := if today ≠ s.current_date
    then { s with current_date := today, daily_requests := 0 } else s
  if (s1.daily_requests : Int) ≥ rl.safe_rpd then (false, s1) else (true, s1)

/-- The per-item environment: everything `_process_file` obtains from the
outside world for one item — the file read (`Except` for an I/O error), the
remote extraction call as a function of the text actually sent (`Except` for
a transport/model error, otherwise the number of extractions found), the
various wall-clock reads and the date observed by the run loop's guard. -/
structure FileOutcome where
  checkDate : String := ""
  text : Except String (List Char) := Except.error ""
  call : List Char → Except String Nat := fun _ => Except.error ""
  wNow : ℚ := 0
  startTime : ℚ := 0
  endTime : ℚ := 0
  reqTime : ℚ := 0
  nowIso : String := ""

/-- The text `_process_file` actually sends to `lx.extract`: truncated via
`text[:max_chars]` with `max_chars = int(len(text) * (safe_tpm / estimated_tokens) * 0.8)`
exactly when the estimate strictly exceeds `safe_tpm`. -/
def sentText (rl : RateLimits) (tok : List Char → Nat) (prompt : List Char)
    (examples : List (List Char)) (text : List Char) : List Char :=
  let est := estimateRequestTokens tok text prompt examples
  if (est : Int) > rl.safe_tpm then
    pySlice text (pyInt ((text.length : ℚ) * ((rl.safe_tpm : ℚ) / (est : ℚ)) * (4/5)))
  else text

/-- `BatchExtractor._process_file`: the whole body runs inside one `try`, and
every exception path (file-read error, `ZeroDivisionError` from
`safe_tpm / estimated_tokens` when the estimate is zero, `ZeroDivisionError`
from the pacing computation when `safe_rpm = 0`, remote-call/save error) ends
in `except`: the item's path is appended — unconditionally — to
`failed_files` and `False` is returned.  On success the output is written and
the state counters, `last_request_time` and `processing_history` are updated. -/
def processFile (rl : RateLimits) (tok : List Char → Nat) (prompt : List Char)
    (examples : List (List Char)) (f : PyPath) (oc : FileOutcome)
    (s : ProcessingState) : Bool × ProcessingState :=
  match oc.text with
  | Except.error _ => (false, { s with failed_files := s.failed_files ++ [f.full] })
  | Except.ok text =>
    if (estimateRequestTokens tok text prompt examples : Int) > rl.safe_tpm ∧
        estimateRequestTokens tok text prompt examples = 0 then
      (false, { s with failed_files := s.failed_files ++ [f.full] })
    else
      match waitForRateLimit rl oc.wNow s.last_request_time with
      | Except.error _ => (false, { s with failed_files := s.failed_files ++ [f.full] })
      | Except.ok _ =>
        match oc.call (sentText rl tok prompt examples text) with
        | Except.error _ => (false, { s with failed_files := s.failed_files ++ [f.full] })
        | Except.ok entities =>
          (true, { s with
            last_request_time := oc.reqTime,
            daily_requests := s.daily_requests + 1,
            processed_files := s.processed_files + 1,
            processing_history := s.processing_history ++
              [{ file := f.name, timestamp := oc.nowIso,
                 entities_found := entities,
                 processing_time := oc.endTime - oc.startTime,
                 tokens_estimated := estimateRequestTokens tok text prompt examples }] })

/-- The `for` loop of `BatchExtractor.run`: per item, the daily-limit guard
(`break` on `False`), then `_process_file`, then `_save_state`, then the
post-item daily-limit `break`.  Also returns the stems of the result files
written (the filesystem effect of the successful items), in order. -/
def runLoop (rl : RateLimits) (tok : List Char → Nat) (prompt : List Char)
    (examples : List (List Char)) (env : PyPath → FileOutcome) :
    List PyPath → ProcessingState → ProcessingState × List String
  | [], s => (s, [])
  | f :: rest, s =>
    match checkDailyLimit rl (env f).checkDate s with
    | (false, s1) => (s1, [])
    | (true, s1) =>
      match processFile rl tok prompt examples f (env f) s1 with
      | (ok, s2) =>
        if (s2.daily_requests : Int) ≥ rl.safe_rpd then
          (s2, if ok then [f.stem] else [])
        else
          ((runLoop rl tok prompt examples env rest s2).1,
           (if ok then [f.stem] else []) ++ (runLoop rl tok prompt examples env rest s2).2)

/-- `BatchExtractor.run`: early return when nothing is pending; otherwise
`total_files` is frozen on first use (`if self.state.total_files == 0`), the
days-to-complete log line evaluates `len(unprocessed_files) / safe_rpd`
(ZeroDivisionError — an `Except.error` carrying the in-memory state — when
`safe_rpd = 0`), then the loop runs.  The `Except.ok` payload is the final
state together with the stems of the result files written. -/
def run (rl : RateLimits) (tok : List Char → Nat) (prompt : List Char)
    (examples : List (List Char)) (env : PyPath → FileOutcome)
    (pending : List PyPath) (s : ProcessingState) :
    Except (ProcessingState × List String) (ProcessingState × List String) :=
  if pending.isEmpty then Except.ok (s, [])
  else
    let s1 := if s.total_files = 0
      then { s with total_files := pending.length + s.processed_files } else s
    if rl.safe_rpd = 0 then Except.error (s1, [])
    else Except.ok (runLoop rl tok prompt examples env pending s1)

/-- The controller state an invocation of `run` left in memory, whether the
invocation returned normally or raised. -/
def stateOf : Except (ProcessingState × List String) (ProcessingState × List String) →
    ProcessingState
  | Except.ok p => p.1
  | Except.error p => p.1

/-- Python `Path(file_path).name`: the component after the last separator. -/
def pyPathName (p : String) : String :=
  (p.splitOn "/").getLastD p

/-- Python `Path(file_path).stem`: the name with its last suffix removed. -/
def pyPathStem (p : String) : String :=
  let n := pyPathName p
  let parts := n.splitOn "."
  if parts.length ≤ 1 then n else String.intercalate "." parts.dropLast

/-- `Path(file_path)` as reconstructed inside `retry_failed`. -/
def pyPathOf (p : String) : PyPath :=
  { full := p, name := pyPathName p, stem := pyPathStem p }

/-- The `for` loop of `BatchExtractor.retry_failed` over the snapshot taken of
`failed_files`: if the daily-limit guard trips, the source re-appends
`failed_files[failed_files.index(file_path):]` — the snapshot's suffix from
the first occurrence of the current item — to the live list and breaks;
otherwise the item is re-attempted through `_process_file`. -/
def retryLoop (rl : RateLimits) (tok : List Char → Nat) (prompt : List Char)
    (examples : List (List Char)) (env : String → FileOutcome)
    (snapshot : List String) :
    List String → ProcessingState → ProcessingState
  | [], s => s
  | p :: rest, s =>
    match checkDailyLimit rl (env p).checkDate s with
    | (false, s1) =>
      { s1 with failed_files := s1.failed_files ++ snapshot.drop (snapshot.indexOf p) }
    | (true, s1) =>
      retryLoop rl tok prompt examples env snapshot rest
        (processFile rl tok prompt examples (pyPathOf p) (env p) s1).2

/-- `BatchExtractor.retry_failed`: early return when there is nothing to
retry; otherwise snapshot the failed list, clear the live list and re-attempt
the snapshot in order. -/
def retryFailed (rl : RateLimits) (tok : List Char → Nat) (prompt : List Char)
    (examples : List (List Char)) (env : String → FileOutcome)
    (s : ProcessingState) : ProcessingState :=
  if s.failed_files.isEmpty then s
  else
    let snapshot := s.failed_files
    retryLoop rl tok prompt examples env snapshot snapshot
      { s with failed_files := [] }

/-! ## Helper lemmas shared by several claims -/

/-- Every failure path of `_process_file` performs exactly one state change:
the item's path is appended to `failed_files`. -/
theorem processFile_failed (rl : RateLimits) (tok : List Char → Nat)
    (prompt : List Char) (examples : List (List Char)) (f : PyPath)
    (oc : FileOutcome) (s : ProcessingState) :
    (processFile rl tok prompt examples f oc s).1 = false →
      (processFile rl tok prompt examples f oc s).2 =
        { s with failed_files := s.failed_files ++ [f.full] } := by
  unfold processFile
  split
  · intro _; rfl
  · split
    · intro _; rfl
    · split
      · intro _; rfl
      · split
        · intro _; rfl
        · intro h; simp at h

/-- The success path of `_process_file`, with every update spelled out. -/
theorem processFile_success (rl : RateLimits) (tok : List Char → Nat)
    (prompt : List Char) (examples : List (List Char)) (f : PyPath)
    (oc : FileOutcome) (s : ProcessingState) (text : List Char) (n : Nat)
    (htext : oc.text = Except.ok text)
    (hnz : ¬ ((estimateRequestTokens tok text prompt examples : Int) > rl.safe_tpm ∧
        estimateRequestTokens tok text prompt examples = 0))
    (hrpm : rl.safe_rpm ≠ 0)
    (hcall : oc.call (sentText rl tok prompt examples text) = Except.ok n) :
    processFile rl tok prompt examples f oc s =
      (true, { s with
        last_request_time := oc.reqTime,
        daily_requests := s.daily_requests + 1,
        processed_files := s.processed_files + 1,
        processing_history := s.processing_history ++
          [{ file := f.name, timestamp := oc.nowIso,
             entities_found := n,
             processing_time := oc.endTime - oc.startTime,
             tokens_estimated := estimateRequestTokens tok text prompt examples }] }) := by
  unfold processFile
  rw [htext]
  simp only [if_neg hnz]
  unfold waitForRateLimit
  rw [if_neg hrpm]
  simp only [hcall]

/-- `_process_file` never touches `total_files` or `current_date`, and
increments `processed_files` by at most one. -/
theorem processFile_frame (rl : RateLimits) (tok : List Char → Nat)
    (prompt : List Char) (examples : List (List Char)) (f : PyPath)
    (oc : FileOutcome) (s : ProcessingState) :
    (processFile rl tok prompt examples f oc s).2.total_files = s.total_files ∧
    (processFile rl tok prompt examples f oc s).2.current_date = s.current_date ∧
    (processFile rl tok prompt examples f oc s).2.processed_files ≤ s.processed_files + 1 := by
  unfold processFile
  repeat' split
  all_goals simp

/-- `_check_daily_limit` touches only `current_date` and `daily_requests`. -/
theorem checkDailyLimit_frame (rl : RateLimits) (today : String)
    (s : ProcessingState) :
    (checkDailyLimit rl today s).2.total_files = s.total_files ∧
    (checkDailyLimit rl today s).2.processed_files = s.processed_files ∧
    (checkDailyLimit rl today s).2.failed_files = s.failed_files ∧
    (checkDailyLimit rl today s).2.last_request_time = s.last_request_time ∧
    (checkDailyLimit rl today s).2.processing_history = s.processing_history := by
  unfold checkDailyLimit
  split <;> (dsimp only; split <;> simp)

/-- When the stored date matches the system date, the guard leaves the state
untouched and just reports whether the limit is reached. -/
theorem checkDailyLimit_same_date (rl : RateLimits) (today : String)
    (s : ProcessingState) (h : s.current_date = today) :
    checkDailyLimit rl today s =
      (if (s.daily_requests : Int) ≥ rl.safe_rpd then (false, s) else (true, s)) := by
  unfold checkDailyLimit
  simp [h]

/-- The processing loop of `run` never modifies `total_files`. -/
theorem runLoop_total (rl : RateLimits) (tok : List Char → Nat)
    (prompt : List Char) (examples : List (List Char)) (env : PyPath → FileOutcome) :
    ∀ (l : List PyPath) (s : ProcessingState),
      (runLoop rl tok prompt examples env l s).1.total_files = s.total_files := by
  intro l
  induction l with
  | nil => intro s; rfl
  | cons f rest ih =>
    intro s
    unfold runLoop
    rcases hc : checkDailyLimit rl (env f).checkDate s with ⟨b, s1⟩
    have h1 : s1.total_files = s.total_files := by
      have hfr := checkDailyLimit_frame rl (env f).checkDate s
      rw [hc] at hfr; exact hfr.1
    cases b
    · simp only [hc, h1]
    · simp only [hc]
      rcases hp : processFile rl tok prompt examples f (env f) s1 with ⟨ok, s2⟩
      have h2 : s2.total_files = s1.total_files := by
        have hfr := processFile_frame rl tok prompt examples f (env f) s1
        rw [hp] at hfr; exact hfr.1
      split
      · rw [h2, h1]
      · rw [ih s2, h2, h1]

/-- The processing loop of `run` processes at most one item per list element. -/
theorem runLoop_processed_le (rl : RateLimits) (tok : List Char → Nat)
    (prompt : List Char) (examples : List (List Char)) (env : PyPath → FileOutcome) :
    ∀ (l : List PyPath) (s : ProcessingState),
      (runLoop rl tok prompt examples env l s).1.processed_files ≤
        s.processed_files + l.length := by
  intro l
  induction l with
  | nil => intro s; simp [runLoop]
  | cons f rest ih =>
    intro s
    unfold runLoop
    rcases hc : checkDailyLimit rl (env f).checkDate s with ⟨b, s1⟩
    have h1 : s1.processed_files = s.processed_files := by
      have hfr := checkDailyLimit_frame rl (env f).checkDate s
      rw [hc] at hfr; exact hfr.2.1
    cases b
    · simp only [hc, List.length_cons]
      omega
    · simp only [hc]
      rcases hp : processFile rl tok prompt examples f (env f) s1 with ⟨ok, s2⟩
      have h2 : s2.processed_files ≤ s1.processed_files + 1 := by
        have hfr := processFile_frame rl tok prompt examples f (env f) s1
        rw [hp] at hfr; exact hfr.2.2
      split
      · simp only [List.length_cons]; omega
      · have h3 := ih s2
        simp only [List.length_cons]
        omega

/-- C10: `run()` modifies `totalFiles` only when it is 0 at entry (freezing it
to the pending count plus `processedFiles`); a positive `totalFiles` is left
unchanged by the whole invocation, normal return or not. -/
theorem run_totalFiles_frame (rl : RateLimits) (tok : List Char → Nat)
    (prompt : List Char) (examples : List (List Char)) (env : PyPath → FileOutcome)
    (pending : List PyPath) (s : ProcessingState) :
    (stateOf (run rl tok prompt examples env pending s)).total_files =
      (if s.total_files = 0 ∧ pending ≠ [] then pending.length + s.processed_files
       else s.total_files) := by
  unfold run
  split
  · rename_i hemp
    rw [List.isEmpty_iff] at hemp
    simp [stateOf, hemp]
  · rename_i hemp
    rw [List.isEmpty_iff] at hemp
    by_cases h0 : s.total_files = 0
    · simp only [h0, if_pos rfl, hemp, ne_eq, not_false_iff, and_true]
      split
      · simp [stateOf]
      · simp [stateOf, runLoop_total]
    · have hcond : ¬ (s.total_files = 0 ∧ pending ≠ []) := by
        intro hx; exact h0 hx.1
      rw [if_neg hcond]
      simp only [if_neg h0]
      split
      · simp [stateOf]
      · simp [stateOf, runLoop_total]

/-! ## Concrete fixtures used by witnesses and counterexamples -/

/-- A simple opaque token counter: one token per character. -/
def tok0 : List Char → Nat := List.length

/-- A small fixed prompt. -/
def prompt0 : List Char := "p".data

/-- The rate limits the source constructs: `RateLimits()` with all defaults. -/
def rlDefault : RateLimits := {}

/-- A `RateLimits` whose derived `safe_rpm` is zero. -/
def rlZeroRpm : RateLimits := { requests_per_minute := 0 }

def pA : PyPath := { full := "in/a.txt", name := "a.txt", stem := "a" }

def pB : PyPath := { full := "in/b.txt", name := "b.txt", stem := "b" }

/-- An item whose remote call raises an error. -/
def ocFail : FileOutcome :=
  { checkDate := "2026-01-01", text := Except.ok ("hi".data),
    call := fun _ => Except.error "boom", wNow := 100 }

/-- An item whose read and remote call both succeed. -/
def ocGood : FileOutcome :=
  { checkDate := "2026-01-01", text := Except.ok ("hello".data),
    call := fun _ => Except.ok 1, wNow := 1000, startTime := 1000, endTime := 1001,
    reqTime := 1001, nowIso := "2026-01-01T00:00:00" }

def goodEnv : PyPath → FileOutcome := fun _ => ocGood

/-! ## C6 — date rollover in the daily-limit guard -/

/-- C6: invoking the guard with a system date different from the stored one
resets `dailyRequests` to 0 and stores the new date; any further invocation
whose state already carries the new date (`s'`, e.g.\ the post-rollover state
after some requests) changes neither field, so the reset happens exactly once
per day. -/
theorem checkDailyLimit_rollover (rl : RateLimits) (today : String)
    (s s' : ProcessingState) (h : s.current_date ≠ today)
    (h' : s'.current_date = today) :
    (checkDailyLimit rl today s).2.daily_requests = 0 ∧
    (checkDailyLimit rl today s).2.current_date = today ∧
    (checkDailyLimit rl today s').2.daily_requests = s'.daily_requests ∧
    (checkDailyLimit rl today s').2.current_date = s'.current_date := by
  have hne : today ≠ s.current_date := fun hx => h hx.symm
  refine ⟨?_, ?_, ?_, ?_⟩
  · unfold checkDailyLimit
    rw [if_pos hne]
    dsimp only
    split <;> rfl
  · unfold checkDailyLimit
    rw [if_pos hne]
    dsimp only
    split <;> rfl
  · rw [checkDailyLimit_same_date rl today s' h']
    split <;> rfl
  · rw [checkDailyLimit_same_date rl today s' h']
    split <;> rfl

/-- C6 witness: a concrete rollover from 2026-01-01 to 2026-01-02, with a
later same-day invocation at 5 accumulated requests. -/
theorem checkDailyLimit_rollover_witness :
    (({ current_date := "2026-01-01", daily_requests := 7 } :
        ProcessingState).current_date ≠ "2026-01-02") ∧
    (({ current_date := "2026-01-02", daily_requests := 5 } :
        ProcessingState).current_date = "2026-01-02") ∧
    ((checkDailyLimit rlDefault "2026-01-02"
        { current_date := "2026-01-01", daily_requests := 7 }).2.daily_requests = 0 ∧
     (checkDailyLimit rlDefault "2026-01-02"
        { current_date := "2026-01-01", daily_requests := 7 }).2.current_date = "2026-01-02" ∧
     (checkDailyLimit rlDefault "2026-01-02"
        { current_date := "2026-01-02", daily_requests := 5 }).2.daily_requests =
       ({ current_date := "2026-01-02", daily_requests := 5 } : ProcessingState).daily_requests ∧
     (checkDailyLimit rlDefault "2026-01-02"
        { current_date := "2026-01-02", daily_requests := 5 }).2.current_date =
       ({ current_date := "2026-01-02", daily_requests := 5 } : ProcessingState).current_date) :=
  ⟨by decide, by decide,
   checkDailyLimit_rollover rlDefault "2026-01-02"
     { current_date := "2026-01-01", daily_requests := 7 }
     { current_date := "2026-01-02", daily_requests := 5 }
     (by decide) (by decide)⟩

/-! ## C3 — the rate-pacing computation has no divide-by-zero guard -/

/-- C3 counterexample: the claim says `60 / safeRpm` is guarded so it is never
evaluated with `safeRpm = 0`.  The code has no such guard: with
`requests_per_minute = 0` the derived `safe_rpm` is 0 and the pacing
computation raises `ZeroDivisionError`. -/
theorem waitForRateLimit_division_by_zero :
    rlZeroRpm.safe_rpm = 0 ∧
    waitForRateLimit rlZeroRpm 0 0 = Except.error "ZeroDivisionError" :=
  ⟨by with_unfolding_all decide, by with_unfolding_all rfl⟩

/-- C3 amended: when `safe_rpm = 0` the pacing computation raises inside the
per-item `try`, so the item is recorded as failed and — whatever the remote
call would have returned — the controller never proceeds to a remote call. -/
theorem processFile_safe_rpm_zero (rl : RateLimits) (tok : List Char → Nat)
    (prompt : List Char) (examples : List (List Char)) (f : PyPath)
    (oc : FileOutcome) (s : ProcessingState) (h : rl.safe_rpm = 0) :
    processFile rl tok prompt examples f oc s =
      (false, { s with failed_files := s.failed_files ++ [f.full] }) := by
  unfold processFile
  split
  · rfl
  · split
    · rfl
    · unfold waitForRateLimit
      rw [if_pos h]

/-- C3 amended witness: with `safe_rpm = 0`, even an item whose remote call
would succeed (`ocGood`) is marked failed before any call. -/
theorem processFile_safe_rpm_zero_witness :
    rlZeroRpm.safe_rpm = 0 ∧
    processFile rlZeroRpm tok0 prompt0 [] pA ocGood { current_date := "2026-01-01" } =
      (false, { current_date := "2026-01-01", failed_files := ["in/a.txt"] }) :=
  ⟨by with_unfolding_all decide,
   by
    rw [processFile_safe_rpm_zero rlZeroRpm tok0 prompt0 [] pA ocGood
      { current_date := "2026-01-01" } (by with_unfolding_all decide)]
    rfl⟩

/-! ## C4 — quota-policy construction performs no validation -/

/-- C4 counterexample: constructing with `safetyFactor = 2` (outside `(0,1]`)
does not fail: it yields a usable policy whose `safe_rpm` is 20, where the
spec-prescribed checked constructor would reject. -/
theorem mkRateLimits_no_validation :
    (mkRateLimits 10 250000 250 2).safe_rpm = 20 ∧
    ¬ ((2 : ℚ) ≤ 1) ∧
    mkRateLimitsSpec 10 250000 250 2 = Except.error "ConfigurationError" :=
  ⟨by with_unfolding_all decide, by decide, by with_unfolding_all rfl⟩

/-- C4 amended: the dataclass constructor accepts every parameter choice; for
a `safetyFactor` above 1 (which the spec's checked constructor rejects) the
resulting policy's `safe_rpm` is at least the base rate, i.e.\ the "safety"
derivation no longer reduces anything. -/
theorem mkRateLimits_invalid_factor (rpm tpm rpd : Int) (f : ℚ)
    (hf : 1 < f) (hr : 0 ≤ rpm) :
    mkRateLimitsSpec rpm tpm rpd f = Except.error "ConfigurationError" ∧
    rpm ≤ (mkRateLimits rpm tpm rpd f).safe_rpm := by
  constructor
  · unfold mkRateLimitsSpec
    rw [if_pos (Or.inr (Or.inl hf))]
  · unfold mkRateLimits RateLimits.safe_rpm pyInt
    have hrq : (0 : ℚ) ≤ (rpm : ℚ) := by exact_mod_cast hr
    have hq : (rpm : ℚ) ≤ (rpm : ℚ) * f :=
      le_mul_of_one_le_right hrq (le_of_lt hf)
    have hpos : (0 : ℚ) ≤ (rpm : ℚ) * f := le_trans hrq hq
    rw [if_pos hpos]
    calc rpm = ⌊(rpm : ℚ)⌋ := (Int.floor_intCast rpm).symm
    _ ≤ ⌊(rpm : ℚ) * f⌋ := Int.floor_le_floor hq

/-- C4 amended witness: base rate 10, factor 2. -/
theorem mkRateLimits_invalid_factor_witness :
    ((1 : ℚ) < 2 ∧ (0 : Int) ≤ 10) ∧
    (mkRateLimitsSpec 10 250000 250 2 = Except.error "ConfigurationError" ∧
     (10 : Int) ≤ (mkRateLimits 10 250000 250 2).safe_rpm) :=
  ⟨⟨by decide, by decide⟩,
   mkRateLimits_invalid_factor 10 250000 250 2 (by decide) (by decide)⟩

/-! ## C2 — failure bookkeeping appends unconditionally -/

/-- A state already carrying the path of `pA` in its failed list. -/
def sFail : ProcessingState :=
  { failed_files := ["in/a.txt"], current_date := "2026-01-01" }

/-- A clean state (no failures) on 2026-01-01. -/
def sClean : ProcessingState := { current_date := "2026-01-01" }

/-- A guard reporting "proceed" implies the (possibly reset) daily counter is
strictly below the daily limit. -/
theorem checkDailyLimit_true (rl : RateLimits) (today : String)
    (s : ProcessingState) :
    (checkDailyLimit rl today s).1 = true →
      ¬ (((checkDailyLimit rl today s).2.daily_requests : Int) ≥ rl.safe_rpd) := by
  unfold checkDailyLimit
  dsimp only
  split
  · split
    · intro h; simp at h
    · intro h2; rename_i hlt; exact hlt
  · split
    · intro h; simp at h
    · intro h2; rename_i hlt; exact hlt

/-- C2 counterexample: the claim says the failing item's identifier is
appended "only if not already present", so it appears "exactly once".  The
source appends unconditionally: failing an item whose path is already in
`failed_files` leaves it there twice. -/
theorem processFile_duplicate_failed :
    (processFile rlDefault tok0 prompt0 [] pA ocFail sFail).1 = false ∧
    ((processFile rlDefault tok0 prompt0 [] pA ocFail sFail).2.failed_files.count
      "in/a.txt") = 2 := by
  with_unfolding_all decide

/-- C2 amended: the append is unconditional, but whenever the identifier is
not already present (the situation produced by `run`'s scan, which excludes
failed identifiers, and by `retry_failed`, which clears the list first) a
per-item failure leaves the identifier in `failed_files` exactly once, leaves
`processed_files` unchanged, and the run loop proceeds to the next item. -/
theorem processFile_failure_recorded_once (rl : RateLimits)
    (tok : List Char → Nat) (prompt : List Char) (examples : List (List Char))
    (env : PyPath → FileOutcome) (f : PyPath) (rest : List PyPath)
    (s s1 : ProcessingState)
    (hc : checkDailyLimit rl (env f).checkDate s = (true, s1))
    (hfail : (processFile rl tok prompt examples f (env f) s1).1 = false)
    (hnotin : f.full ∉ s1.failed_files) :
    ((processFile rl tok prompt examples f (env f) s1).2.failed_files.count f.full) = 1 ∧
    (processFile rl tok prompt examples f (env f) s1).2.processed_files =
      s1.processed_files ∧
    runLoop rl tok prompt examples env (f :: rest) s =
      runLoop rl tok prompt examples env rest
        (processFile rl tok prompt examples f (env f) s1).2 := by
  have hsnd := processFile_failed rl tok prompt examples f (env f) s1 hfail
  have htrue : ¬ ((s1.daily_requests : Int) ≥ rl.safe_rpd) := by
    have h1 := checkDailyLimit_true rl (env f).checkDate s
    rw [hc] at h1
    exact h1 rfl
  refine ⟨?_, ?_, ?_⟩
  · rw [hsnd]
    simp [List.count_append, List.count_eq_zero.mpr hnotin]
  · rw [hsnd]
  · rw [runLoop]
    rw [hc]
    dsimp only
    rcases hp : processFile rl tok prompt examples f (env f) s1 with ⟨b2, s2⟩
    have hb2 : b2 = false := by rw [hp] at hfail; exact hfail
    have hs2 : s2.daily_requests = s1.daily_requests := by
      rw [hp] at hsnd
      have := congrArg ProcessingState.daily_requests hsnd
      exact this
    subst hb2
    rw [if_neg (by rw [hs2]; exact htrue)]
    simp

/-- C2 amended witness: a clean state, an item whose remote call errors. -/
theorem processFile_failure_recorded_once_witness :
    (checkDailyLimit rlDefault ((fun _ => ocFail) pA).checkDate sClean = (true, sClean) ∧
     (processFile rlDefault tok0 prompt0 [] pA ((fun _ => ocFail) pA) sClean).1 = false ∧
     pA.full ∉ sClean.failed_files) ∧
    (((processFile rlDefault tok0 prompt0 [] pA ((fun _ => ocFail) pA) sClean).2.failed_files.count
        pA.full) = 1 ∧
     (processFile rlDefault tok0 prompt0 [] pA ((fun _ => ocFail) pA) sClean).2.processed_files =
        sClean.processed_files ∧
     runLoop rlDefault tok0 prompt0 [] (fun _ => ocFail) [pA] sClean =
       runLoop rlDefault tok0 prompt0 [] (fun _ => ocFail) []
         (processFile rlDefault tok0 prompt0 [] pA ((fun _ => ocFail) pA) sClean).2) :=
  ⟨⟨by with_unfolding_all decide, by with_unfolding_all decide, by decide⟩,
   processFile_failure_recorded_once rlDefault tok0 prompt0 [] (fun _ => ocFail)
     pA [] sClean sClean (by with_unfolding_all decide)
     (by with_unfolding_all decide) (by decide)⟩

/-! ## C9 — retry with the daily limit already reached -/

/-- C9: `retry_failed` with three failed items while the daily counter is at
the limit (and the stored date matches the system date) attempts nothing,
terminates normally, and leaves the state — in particular the three
identifiers in `failed_files` — exactly as it was. -/
theorem retryFailed_at_limit (rl : RateLimits) (tok : List Char → Nat)
    (prompt : List Char) (examples : List (List Char))
    (env : String → FileOutcome) (a b c : String) (s : ProcessingState)
    (hfail : s.failed_files = [a, b, c])
    (hdate : s.current_date = (env a).checkDate)
    (hlimit : (s.daily_requests : Int) ≥ rl.safe_rpd) :
    retryFailed rl tok prompt examples env s = s := by
  unfold retryFailed
  rw [hfail]
  simp only [List.isEmpty_cons, Bool.false_eq_true, if_false]
  rw [retryLoop]
  have hd0 : ({ s with failed_files := ([] : List String) } :
      ProcessingState).current_date = (env a).checkDate := hdate
  rw [checkDailyLimit_same_date rl (env a).checkDate _ hd0]
  rw [if_pos hlimit]
  dsimp only
  rw [List.indexOf_cons_self]
  rw [List.drop_zero, List.nil_append]
  rw [← hfail]

/-- The state of the C9 witness: three failed items, counter at the default
daily limit. -/
def s9 : ProcessingState :=
  { failed_files := ["x", "y", "z"], current_date := "2026-01-01",
    daily_requests := 200 }

/-- The per-item environment of the C9 witness: only the guard's date read
matters, since nothing is ever attempted. -/
def env9 : String → FileOutcome := fun _ => { checkDate := "2026-01-01" }

/-- C9 witness: three concrete failed items, counter at the default limit. -/
theorem retryFailed_at_limit_witness :
    (s9.failed_files = ["x", "y", "z"] ∧
     s9.current_date = (env9 "x").checkDate ∧
     ((s9.daily_requests : Int) ≥ rlDefault.safe_rpd)) ∧
    retryFailed rlDefault tok0 prompt0 [] env9 s9 = s9 :=
  ⟨⟨by decide, by decide, by with_unfolding_all decide⟩,
   retryFailed_at_limit rlDefault tok0 prompt0 [] env9 "x" "y" "z" s9
     (by decide) (by decide) (by with_unfolding_all decide)⟩

/-! ## C5 — processedFiles vs frozen totalFiles -/

/-- First run: one pending file on a fresh state; freezes `total_files` at 1
and processes the file. -/
def c5s1 : ProcessingState := stateOf (run rlDefault tok0 prompt0 [] goodEnv [pA] {})

/-- Second run the next invocation: a NEW file `pB` has appeared; the frozen
`total_files` is not increased. -/
def c5s2 : ProcessingState := stateOf (run rlDefault tok0 prompt0 [] goodEnv [pB] c5s1)

/-- C5 counterexample: after the freeze (`total_files = 1 > 0`), a later run
over a newly appeared file drives `processed_files` to 2 while `total_files`
stays 1 — the claimed invariant `processedFiles ≤ totalFiles` fails exactly in
the "new source files have appeared" case the claim includes. -/
theorem run_processed_exceeds_total :
    c5s1.total_files = 1 ∧ c5s1.processed_files = 1 ∧
    c5s2.total_files = 1 ∧ ¬ (c5s2.processed_files ≤ c5s2.total_files) := by
  with_unfolding_all decide

/-- C5 amended: once `total_files` is frozen positive, a `run` invocation
preserves `processedFiles ≤ totalFiles` provided the pending list fits in the
remaining budget `totalFiles - processedFiles` — which holds whenever no new
files appeared after the freeze; with new files the invariant can fail,
since `run` never increases a positive `total_files`. -/
theorem run_processed_le_total (rl : RateLimits) (tok : List Char → Nat)
    (prompt : List Char) (examples : List (List Char)) (env : PyPath → FileOutcome)
    (pending : List PyPath) (s : ProcessingState)
    (hfrozen : 0 < s.total_files)
    (hroom : s.processed_files + pending.length ≤ s.total_files) :
    (stateOf (run rl tok prompt examples env pending s)).processed_files ≤
      (stateOf (run rl tok prompt examples env pending s)).total_files := by
  unfold run
  split
  · simp only [stateOf]
    omega
  · have h0 : ¬ s.total_files = 0 := by omega
    simp only [if_neg h0]
    split
    · simp only [stateOf]; omega
    · simp only [stateOf]
      have h1 := runLoop_total rl tok prompt examples env pending s
      have h2 := runLoop_processed_le rl tok prompt examples env pending s
      omega

/-- State for the C5 amended witness: frozen at 5 with 1 processed. -/
def sW : ProcessingState :=
  { total_files := 5, processed_files := 1, current_date := "2026-01-01" }

/-- C5 amended witness: one pending item against a remaining budget of 4. -/
theorem run_processed_le_total_witness :
    (0 < sW.total_files ∧ sW.processed_files + [pB].length ≤ sW.total_files) ∧
    (stateOf (run rlDefault tok0 prompt0 [] goodEnv [pB] sW)).processed_files ≤
      (stateOf (run rlDefault tok0 prompt0 [] goodEnv [pB] sW)).total_files :=
  ⟨⟨by decide, by decide⟩,
   run_processed_le_total rlDefault tok0 prompt0 [] goodEnv [pB] sW
     (by decide) (by decide)⟩

/-! ## C7 — truncation boundary and formula -/

/-- C7: the text sent to the remote call is the original exactly when the
estimate does not exceed `safe_tpm` (equality included); when the estimate
strictly exceeds it, the sent text's length equals
`⌊len * (safeTpm / estimate) * 0.8⌋`, and the truncated item still goes
through the remote call: a successful call yields a normal success update. -/
theorem truncation_boundary (rl : RateLimits) (tok : List Char → Nat)
    (prompt : List Char) (examples : List (List Char)) (text : List Char)
    (f : PyPath) (oc : FileOutcome) (s : ProcessingState) (n : Nat)
    (htpm : 0 ≤ rl.safe_tpm) :
    ((estimateRequestTokens tok text prompt examples : Int) ≤ rl.safe_tpm →
      sentText rl tok prompt examples text = text) ∧
    ((estimateRequestTokens tok text prompt examples : Int) > rl.safe_tpm →
      (((sentText rl tok prompt examples text).length : Int) =
        ⌊(text.length : ℚ) *
          ((rl.safe_tpm : ℚ) / ((estimateRequestTokens tok text prompt examples : Nat) : ℚ)) *
          (4/5)⌋ ∧
       (oc.text = Except.ok text → rl.safe_rpm ≠ 0 →
        oc.call (sentText rl tok prompt examples text) = Except.ok n →
        processFile rl tok prompt examples f oc s =
          (true, { s with
            last_request_time := oc.reqTime,
            daily_requests := s.daily_requests + 1,
            processed_files := s.processed_files + 1,
            processing_history := s.processing_history ++
              [{ file := f.name, timestamp := oc.nowIso, entities_found := n,
                 processing_time := oc.endTime - oc.startTime,
                 tokens_estimated := estimateRequestTokens tok text prompt examples }] })))) := by
  constructor
  · intro hle
    unfold sentText
    dsimp only
    rw [if_neg (not_lt.mpr hle)]
  · intro hgt
    have hestpos : (0 : Int) < (estimateRequestTokens tok text prompt examples : Int) :=
      lt_of_le_of_lt htpm hgt
    have hne0 : estimateRequestTokens tok text prompt examples ≠ 0 := by
      intro h0
      rw [h0] at hestpos
      exact lt_irrefl _ hestpos
    have hestQ : (0 : ℚ) < ((estimateRequestTokens tok text prompt examples : Nat) : ℚ) := by
      exact_mod_cast Nat.pos_of_ne_zero hne0
    constructor
    · unfold sentText
      dsimp only
      rw [if_pos hgt]
      have hq0 : 0 ≤ (text.length : ℚ) *
          ((rl.safe_tpm : ℚ) / ((estimateRequestTokens tok text prompt examples : Nat) : ℚ)) *
          (4/5) := by
        apply mul_nonneg
        apply mul_nonneg
        · exact_mod_cast Nat.zero_le _
        · exact div_nonneg (by exact_mod_cast htpm) (le_of_lt hestQ)
        · norm_num
      have hTE : (rl.safe_tpm : ℚ) /
          ((estimateRequestTokens tok text prompt examples : Nat) : ℚ) ≤ 1 := by
        apply div_le_one_of_le₀
        · exact_mod_cast le_of_lt hgt
        · exact le_of_lt hestQ
      have hql : (text.length : ℚ) *
          ((rl.safe_tpm : ℚ) / ((estimateRequestTokens tok text prompt examples : Nat) : ℚ)) *
          (4/5) ≤ (text.length : ℚ) := by
        have h1 : (text.length : ℚ) *
            ((rl.safe_tpm : ℚ) / ((estimateRequestTokens tok text prompt examples : Nat) : ℚ)) ≤
            (text.length : ℚ) :=
          mul_le_of_le_one_right (by exact_mod_cast Nat.zero_le _) hTE
        calc (text.length : ℚ) *
            ((rl.safe_tpm : ℚ) / ((estimateRequestTokens tok text prompt examples : Nat) : ℚ)) *
            (4/5) ≤ (text.length : ℚ) * (4/5) :=
              mul_le_mul_of_nonneg_right h1 (by norm_num)
          _ ≤ (text.length : ℚ) * 1 :=
              mul_le_mul_of_nonneg_left (by norm_num) (by exact_mod_cast Nat.zero_le _)
          _ = (text.length : ℚ) := mul_one _
      unfold pyInt
      rw [if_pos hq0]
      unfold pySlice
      have hfl0 : 0 ≤ ⌊(text.length : ℚ) *
          ((rl.safe_tpm : ℚ) / ((estimateRequestTokens tok text prompt examples : Nat) : ℚ)) *
          (4/5)⌋ := Int.floor_nonneg.mpr hq0
      rw [if_pos hfl0]
      rw [List.length_take]
      have hfl_le : ⌊(text.length : ℚ) *
          ((rl.safe_tpm : ℚ) / ((estimateRequestTokens tok text prompt examples : Nat) : ℚ)) *
          (4/5)⌋ ≤ (text.length : Int) := by
        calc ⌊(text.length : ℚ) *
            ((rl.safe_tpm : ℚ) / ((estimateRequestTokens tok text prompt examples : Nat) : ℚ)) *
            (4/5)⌋ ≤ ⌊(text.length : ℚ)⌋ := Int.floor_le_floor hql
          _ = (text.length : Int) := Int.floor_natCast _
      rw [min_eq_left (Int.toNat_le.mpr hfl_le)]
      rw [Int.toNat_of_nonneg hfl0]
    · intro htext hrpm hcall
      exact processFile_success rl tok prompt examples f oc s text n htext
        (fun hx => hne0 hx.2) hrpm hcall

/-- A policy with a tiny token budget, used to exercise truncation:
`safe_tpm = 5`. -/
def rlSmall : RateLimits :=
  { requests_per_minute := 10, tokens_per_minute := 5, requests_per_day := 250,
    safety_factor := 1 }

/-- An item large enough to be truncated under `rlSmall`. -/
def ocTrunc : FileOutcome :=
  { checkDate := "2026-01-01", text := Except.ok ("hello world!".data),
    call := fun _ => Except.ok 3 }

/-- C7 witness: `safe_tpm = 5`, a 12-character text whose estimate is 19. -/
theorem truncation_boundary_witness :
    (0 ≤ rlSmall.safe_tpm) ∧
    (((estimateRequestTokens tok0 ("hello world!".data) prompt0 [] : Int) ≤ rlSmall.safe_tpm →
      sentText rlSmall tok0 prompt0 [] ("hello world!".data) = "hello world!".data) ∧
    ((estimateRequestTokens tok0 ("hello world!".data) prompt0 [] : Int) > rlSmall.safe_tpm →
      (((sentText rlSmall tok0 prompt0 [] ("hello world!".data)).length : Int) =
        ⌊(("hello world!".data).length : ℚ) *
          ((rlSmall.safe_tpm : ℚ) /
            ((estimateRequestTokens tok0 ("hello world!".data) prompt0 [] : Nat) : ℚ)) *
          (4/5)⌋ ∧
       (ocTrunc.text = Except.ok ("hello world!".data) → rlSmall.safe_rpm ≠ 0 →
        ocTrunc.call (sentText rlSmall tok0 prompt0 [] ("hello world!".data)) = Except.ok 3 →
        processFile rlSmall tok0 prompt0 [] pA ocTrunc sClean =
          (true, { sClean with
            last_request_time := ocTrunc.reqTime,
            daily_requests := sClean.daily_requests + 1,
            processed_files := sClean.processed_files + 1,
            processing_history := sClean.processing_history ++
              [{ file := pA.name, timestamp := ocTrunc.nowIso, entities_found := 3,
                 processing_time := ocTrunc.endTime - ocTrunc.startTime,
                 tokens_estimated := estimateRequestTokens tok0 ("hello world!".data) prompt0 [] }] }))))) :=
  ⟨by with_unfolding_all decide,
   truncation_boundary rlSmall tok0 prompt0 [] ("hello world!".data) pA ocTrunc sClean 3
     (by with_unfolding_all decide)⟩

/-! ## C1 — Scenario A: safeRpd = 2, five pending items, all succeed -/

/-- The result-file stems a `run` invocation wrote. -/
def writtenOf : Except (ProcessingState × List String) (ProcessingState × List String) →
    List String
  | Except.ok p => p.2
  | Except.error p => p.2

theorem scenario_a (rl : RateLimits) (tok : List Char → Nat) (prompt : List Char)
    (examples : List (List Char)) (env : PyPath → FileOutcome)
    (f1 f2 f3 f4 f5 : PyPath) (s : ProcessingState) (d : String)
    (hrpd : rl.safe_rpd = 2)
    (hrpm : rl.safe_rpm ≠ 0)
    (htpm : 0 ≤ rl.safe_tpm)
    (hdate : s.current_date = d)
    (hdaily : s.daily_requests = 0)
    (htot : s.total_files = 0)
    (hproc : s.processed_files = 0)
    (hfailed : s.failed_files = [])
    (hcd : ∀ f ∈ [f1, f2, f3, f4, f5], (env f).checkDate = d)
    (hgood : ∀ f ∈ [f1, f2, f3, f4, f5], ∃ t n, (env f).text = Except.ok t ∧
        (env f).call (sentText rl tok prompt examples t) = Except.ok n)
    (hstems : ∀ f ∈ [f3, f4, f5], f.stem ≠ f1.stem ∧ f.stem ≠ f2.stem) :
    (run rl tok prompt examples env [f1, f2, f3, f4, f5] s).isOk = true ∧
    (stateOf (run rl tok prompt examples env [f1, f2, f3, f4, f5] s)).processed_files = 2 ∧
    (stateOf (run rl tok prompt examples env [f1, f2, f3, f4, f5] s)).daily_requests = 2 ∧
    (stateOf (run rl tok prompt examples env [f1, f2, f3, f4, f5] s)).failed_files = [] ∧
    writtenOf (run rl tok prompt examples env [f1, f2, f3, f4, f5] s) = [f1.stem, f2.stem] ∧
    getUnprocessedFiles [f1, f2, f3, f4, f5]
      (writtenOf (run rl tok prompt examples env [f1, f2, f3, f4, f5] s))
      (stateOf (run rl tok prompt examples env [f1, f2, f3, f4, f5] s)).failed_files =
      [f3, f4, f5] := by
  obtain ⟨t1, n1, ht1, hc1⟩ := hgood f1 (by simp)
  obtain ⟨t2, n2, ht2, hc2⟩ := hgood f2 (by simp)
  have hcd1 := hcd f1 (by simp)
  have hcd2 := hcd f2 (by simp)
  obtain ⟨tf, pf, ff, cd, dr, lrt, ph⟩ := s
  dsimp only at hdate hdaily htot hproc hfailed
  subst hdate hdaily htot hproc hfailed
  -- the estimate-zero division branch is impossible while safe_tpm ≥ 0
  have hnz : ∀ t : List Char,
      ¬ ((estimateRequestTokens tok t prompt examples : Int) > rl.safe_tpm ∧
         estimateRequestTokens tok t prompt examples = 0) := by
    intro t hx
    rcases hx with ⟨hgt, h0⟩
    rw [h0] at hgt
    simp at hgt
    exact absurd htpm (not_le.mpr hgt)
  -- the frozen state entering the loop
  have hrpd0 : rl.safe_rpd ≠ 0 := by rw [hrpd]; decide
  -- step 1
  have hstep1 := processFile_success rl tok prompt examples f1 (env f1)
    (⟨5, 0, [], cd, 0, lrt, ph⟩ : ProcessingState) t1 n1 ht1 (hnz t1) hrpm hc1
  have hstep2 := processFile_success rl tok prompt examples f2 (env f2)
    ({ total_files := 5, processed_files := 0 + 1, failed_files := [],
       current_date := cd, daily_requests := 0 + 1,
       last_request_time := (env f1).reqTime,
       processing_history := ph ++
         [{ file := f1.name, timestamp := (env f1).nowIso, entities_found := n1,
            processing_time := (env f1).endTime - (env f1).startTime,
            tokens_estimated := estimateRequestTokens tok t1 prompt examples }] } :
      ProcessingState)
    t2 n2 ht2 (hnz t2) hrpm hc2
  have hrun : runLoop rl tok prompt examples env [f1, f2, f3, f4, f5]
      (⟨5, 0, [], cd, 0, lrt, ph⟩ : ProcessingState) =
      ({ total_files := 5, processed_files := 2, failed_files := [],
         current_date := cd, daily_requests := 2,
         last_request_time := (env f2).reqTime,
         processing_history := ph ++
           [{ file := f1.name, timestamp := (env f1).nowIso, entities_found := n1,
              processing_time := (env f1).endTime - (env f1).startTime,
              tokens_estimated := estimateRequestTokens tok t1 prompt examples },
            { file := f2.name, timestamp := (env f2).nowIso, entities_found := n2,
              processing_time := (env f2).endTime - (env f2).startTime,
              tokens_estimated := estimateRequestTokens tok t2 prompt examples }] },
       [f1.stem, f2.stem]) := by
    rw [runLoop]
    rw [hcd1]
    rw [checkDailyLimit_same_date rl cd _ rfl]
    rw [if_neg (by rw [hrpd]; dsimp only; decide)]
    dsimp only
    rw [hstep1]
    dsimp only
    rw [if_neg (by rw [hrpd]; decide)]
    rw [runLoop]
    rw [hcd2]
    rw [checkDailyLimit_same_date rl cd _ rfl]
    rw [if_neg (by rw [hrpd]; dsimp only; decide)]
    dsimp only
    rw [hstep2]
    dsimp only
    rw [if_pos (by rw [hrpd]; decide)]
    norm_num [List.append_assoc]
  have hrunfull : run rl tok prompt examples env [f1, f2, f3, f4, f5]
      (⟨0, 0, [], cd, 0, lrt, ph⟩ : ProcessingState) =
      Except.ok (runLoop rl tok prompt examples env [f1, f2, f3, f4, f5]
        (⟨5, 0, [], cd, 0, lrt, ph⟩ : ProcessingState)) := by
    unfold run
    simp only [List.isEmpty_cons, Bool.false_eq_true, if_false, if_true]
    rw [if_neg hrpd0]
    rfl
  rw [hrunfull, hrun]
  refine ⟨rfl, rfl, rfl, rfl, rfl, ?_⟩
  unfold getUnprocessedFiles stateOf writtenOf
  dsimp only
  obtain ⟨h31, h32⟩ := hstems f3 (by simp)
  obtain ⟨h41, h42⟩ := hstems f4 (by simp)
  obtain ⟨h51, h52⟩ := hstems f5 (by simp)
  simp [List.filter, h31, h32, h41, h42, h51, h52]

/-- A policy with `safe_rpd = 2`, for Scenario A. -/
def rlScenA : RateLimits :=
  { requests_per_minute := 10, tokens_per_minute := 250000, requests_per_day := 2,
    safety_factor := 1 }

def pC : PyPath := { full := "in/c.txt", name := "c.txt", stem := "c" }

def pD : PyPath := { full := "in/d.txt", name := "d.txt", stem := "d" }

def pE : PyPath := { full := "in/e.txt", name := "e.txt", stem := "e" }

/-- C1 witness: Scenario A at concrete values — five distinct pending files,
all succeeding, `safe_rpd = 2`, a fresh state on 2026-01-01. -/
theorem scenario_a_witness :
    (rlScenA.safe_rpd = 2 ∧ rlScenA.safe_rpm ≠ 0 ∧ 0 ≤ rlScenA.safe_tpm ∧
     sClean.current_date = "2026-01-01" ∧ sClean.daily_requests = 0 ∧
     sClean.total_files = 0 ∧ sClean.processed_files = 0 ∧ sClean.failed_files = [] ∧
     (∀ f ∈ [pA, pB, pC, pD, pE], (goodEnv f).checkDate = "2026-01-01") ∧
     (∀ f ∈ [pA, pB, pC, pD, pE], ∃ t n, (goodEnv f).text = Except.ok t ∧
        (goodEnv f).call (sentText rlScenA tok0 prompt0 [] t) = Except.ok n) ∧
     (∀ f ∈ [pC, pD, pE], f.stem ≠ pA.stem ∧ f.stem ≠ pB.stem)) ∧
    ((run rlScenA tok0 prompt0 [] goodEnv [pA, pB, pC, pD, pE] sClean).isOk = true ∧
     (stateOf (run rlScenA tok0 prompt0 [] goodEnv [pA, pB, pC, pD, pE] sClean)).processed_files = 2 ∧
     (stateOf (run rlScenA tok0 prompt0 [] goodEnv [pA, pB, pC, pD, pE] sClean)).daily_requests = 2 ∧
     (stateOf (run rlScenA tok0 prompt0 [] goodEnv [pA, pB, pC, pD, pE] sClean)).failed_files = [] ∧
     writtenOf (run rlScenA tok0 prompt0 [] goodEnv [pA, pB, pC, pD, pE] sClean) = [pA.stem, pB.stem] ∧
     getUnprocessedFiles [pA, pB, pC, pD, pE]
       (writtenOf (run rlScenA tok0 prompt0 [] goodEnv [pA, pB, pC, pD, pE] sClean))
       (stateOf (run rlScenA tok0 prompt0 [] goodEnv [pA, pB, pC, pD, pE] sClean)).failed_files =
       [pC, pD, pE]) :=
  ⟨⟨by with_unfolding_all decide, by with_unfolding_all decide,
    by with_unfolding_all decide, by decide, by decide, by decide, by decide,
    by decide, by decide, fun f _ => ⟨"hello".data, 1, rfl, rfl⟩, by decide⟩,
   scenario_a rlScenA tok0 prompt0 [] goodEnv pA pB pC pD pE sClean "2026-01-01"
     (by with_unfolding_all decide) (by with_unfolding_all decide)
     (by with_unfolding_all decide) (by decide) (by decide) (by decide)
     (by decide) (by decide) (by decide)
     (fun f _ => ⟨"hello".data, 1, rfl, rfl⟩) (by decide)⟩

/-! ## C8 — persisted state round-trip -/

/-- The JSON value tree: what `json.dump` writes and `json.load` restores.
Python ints and floats are distinct JSON-level values; floats are exact
rationals here. -/
inductive JVal where
  | jint : Int → JVal
  | jfloat : ℚ → JVal
  | jstr : String → JVal
  | jarr : List JVal → JVal
  | jobj : List (String × JVal) → JVal

/-- Reading a JSON value as a string. -/
def jStr? : JVal → Option String
  | JVal.jstr s => some s
  | _ => none

/-- Reading a JSON value as a nonnegative integer (the state's counters). -/
def jNat? : JVal → Option Nat
  | JVal.jint n => if 0 ≤ n then some n.toNat else none
  | _ => none

/-- Reading a JSON value as a number (the state's timestamps). -/
def jRat? : JVal → Option ℚ
  | JVal.jfloat q => some q
  | _ => none

/-- Reading a JSON value as an array. -/
def jArr? : JVal → Option (List JVal)
  | JVal.jarr l => some l
  | _ => none

/-- Key lookup in a JSON object (Python dict access). -/
def jLookup (k : String) : List (String × JVal) → Option JVal
  | [] => none
  | (k', v) :: rest => if k' = k then some v else jLookup k rest

/-- Decode every element of a list, failing if any element fails. -/
def mapOpt (f : α → Option β) : List α → Option (List β)
  | [] => some []
  | a :: t =>
    match f a, mapOpt f t with
    | some b, some bt => some (b :: bt)
    | _, _ => none

/-- One `processing_history` entry as `asdict` renders it. -/
def histToJson (h : HistEntry) : JVal :=
  JVal.jobj [("file", JVal.jstr h.file), ("timestamp", JVal.jstr h.timestamp),
    ("entities_found", JVal.jint h.entities_found),
    ("processing_time", JVal.jfloat h.processing_time),
    ("tokens_estimated", JVal.jint h.tokens_estimated)]

/-- `ProcessingState.to_dict` (= `asdict`) followed by `json.dump`: the JSON
object `_save_state` writes to the state file. -/
def stateToDict (s : ProcessingState) : JVal :=
  JVal.jobj [("total_files", JVal.jint s.total_files),
    ("processed_files", JVal.jint s.processed_files),
    ("failed_files", JVal.jarr (s.failed_files.map JVal.jstr)),
    ("current_date", JVal.jstr s.current_date),
    ("daily_requests", JVal.jint s.daily_requests),
    ("last_request_time", JVal.jfloat s.last_request_time),
    ("processing_history", JVal.jarr (s.processing_history.map histToJson))]

/-- Decoding one history entry out of a loaded JSON object. -/
def histFromJson (j : JVal) : Option HistEntry :=
  match j with
  | JVal.jobj l =>
    match jLookup "file" l >>= jStr?, jLookup "timestamp" l >>= jStr?,
          jLookup "entities_found" l >>= jNat?, jLookup "processing_time" l >>= jRat?,
          jLookup "tokens_estimated" l >>= jNat? with
    | some f, some ts, some ef, some pt, some te => some ⟨f, ts, ef, pt, te⟩
    | _, _, _, _, _ => none
  | _ => none

/-- `json.load` followed by `ProcessingState.from_dict` (= `cls(**data)`):
what `_load_state` reconstructs from the state file. -/
def stateFromDict (j : JVal) : Option ProcessingState :=
  match j with
  | JVal.jobj l =>
    match jLookup "total_files" l >>= jNat?, jLookup "processed_files" l >>= jNat?,
          (jLookup "failed_files" l >>= jArr?).bind (mapOpt jStr?),
          jLookup "current_date" l >>= jStr?, jLookup "daily_requests" l >>= jNat?,
          jLookup "last_request_time" l >>= jRat?,
          (jLookup "processing_history" l >>= jArr?).bind (mapOpt histFromJson) with
    | some tf, some pf, some ff, some cd, some dr, some lrt, some ph =>
      some ⟨tf, pf, ff, cd, dr, lrt, ph⟩
    | _, _, _, _, _, _, _ => none
  | _ => none

/-- Encoded string lists decode to themselves. -/
theorem mapOpt_jStr_map (l : List String) :
    mapOpt jStr? (l.map JVal.jstr) = some l := by
  induction l with
  | nil => rfl
  | cons a t ih => simp [mapOpt, ih, jStr?]

/-- An encoded history entry decodes to itself. -/
theorem histFromJson_histToJson (h : HistEntry) :
    histFromJson (histToJson h) = some h := by
  simp +decide [histToJson, histFromJson, jLookup, jStr?, jNat?, jRat?]

/-- Encoded history lists decode to themselves. -/
theorem mapOpt_hist_map (l : List HistEntry) :
    mapOpt histFromJson (l.map histToJson) = some l := by
  induction l with
  | nil => rfl
  | cons a t ih => simp [mapOpt, histFromJson_histToJson, ih]

/-- C8: round-trip resume law — persisting any `ProcessingState` to the state
file and reloading it restores a state equal in all seven fields. -/
theorem stateFromDict_stateToDict (s : ProcessingState) :
    stateFromDict (stateToDict s) = some s := by
  simp +decide [stateToDict, stateFromDict, jLookup, jStr?, jNat?, jRat?, jArr?,
    mapOpt_jStr_map, mapOpt_hist_map]

end LangExtractBatch
